import Mathlib

/-!
Verification development for the SpaceForgeOS orbital-fab simulator core.

The definitions below are a shallow embedding of the C++ sources:
  cpp_core/src/PowerModule.cpp, cpp_core/include/PowerModule.hpp
  cpp_core/include/Task.hpp
  the threaded DepositionModule implementation
  cpp_core/scrapped/ion_implantation_model.cpp
  cpp_core/src/main.cpp
C++ int is modeled as Int; clamps are written exactly where the source
writes std::min / std::max.  The double-typed defect chance is carried
as a rational; the one comparison against a random double is abstracted
into a sampled Boolean parameter (defectHit), since the failure paths
under study never consult it.
-/

namespace SpaceForge

/-- State of PowerModule (PowerModule.hpp private fields, all C++ int). -/
structure PowerState where
  battery : Int
  maxBattery : Int
  genSunlight : Int
  genEclipse : Int
  producedThisMinute : Int
  budgetThisMinute : Int
deriving DecidableEq, Repr

/-- PowerModule constructor: full battery, zero scratch (PowerModule.cpp lines 6-15). -/
def powerInit (maxBattery genSunlight genEclipse : Int) : PowerState :=
  { battery := maxBattery
    maxBattery := maxBattery
    genSunlight := genSunlight
    genEclipse := genEclipse
    producedThisMinute := 0
    budgetThisMinute := 0 }

/-- PowerModule.solarGeneration: picks the wattage for the orbital phase
(PowerModule.cpp lines 20-22). -/
def solarGeneration (s : PowerState) (phase : String) : Int :=
  if phase = "sunlight" then s.genSunlight else s.genEclipse

/-- PowerModule.update (PowerModule.cpp lines 27-35): computes production,
credits the battery clamped to [0, maxBattery], and sets the minute budget
to production plus at most 300 W drawn from the battery.  The tick argument
is unused by the source body. -/
def powerUpdate (_t : Int) (phase : String) (s : PowerState) : PowerState :=
  let produced := solarGeneration s phase
  let battery := min (max (s.battery + produced) 0) s.maxBattery
  let batteryDrawPotential := min 300 battery
  { s with producedThisMinute := produced
           battery := battery
           budgetThisMinute := produced + batteryDrawPotential }

/-- PowerModule.canSatisfyDemand (PowerModule.cpp lines 38-40). -/
def canSatisfyDemand (s : PowerState) (watts : Int) : Bool :=
  watts ≤ s.budgetThisMinute

/-- PowerModule.consumePower (PowerModule.cpp lines 44-49): debits the budget,
and draws max(0, watts - producedThisMinute) from the battery, clamped at 0.
Note the source consults the full producedThisMinute on every call; no
tick-local remainder is kept. -/
def consumePower (s : PowerState) (watts : Int) : PowerState :=
  let wattsFromBattery := max 0 (watts - s.producedThisMinute)
  { s with budgetThisMinute := s.budgetThisMinute - watts
           battery := max 0 (s.battery - wattsFromBattery) }

/-- Result tag for the reserve-and-consume protocol. -/
inductive ConsumeResult where
  | ok
  | insufficient
deriving DecidableEq, Repr

/-- The documented reserve-and-consume protocol (PowerModule.hpp usage
comment, and every call site): canSatisfyDemand guards consumePower; on a
failed guard nothing is executed. -/
def consume (s : PowerState) (watts : Int) : ConsumeResult × PowerState :=
  if canSatisfyDemand s watts then (ConsumeResult.ok, consumePower s watts)
  else (ConsumeResult.insufficient, s)

/-- Modelled from the spec: the solar-first accounting of section 4.2, which
keeps a tick-local solar remainder.  This is NOT the source algorithm; it is
written from the words of the spec so the two can be compared. -/
structure SpecPowerState where
  battery : Int
  solarRemaining : Int
  budget : Int
deriving DecidableEq, Repr

/-- Modelled from the spec: at refresh the tick-local solar remainder is
initialized to the production of the tick. -/
def specAfterRefresh (s : PowerState) : SpecPowerState :=
  { battery := s.battery
    solarRemaining := s.producedThisMinute
    budget := s.budgetThisMinute }

/-- Modelled from the spec: each successful consume debits min(w, solar
remaining) from the solar remainder and draws only the rest from the battery
(clamped at 0, as in section 4.2). -/
def specConsume (s : SpecPowerState) (watts : Int) : SpecPowerState :=
  let fromSolar := min watts s.solarRemaining
  { battery := max 0 (s.battery - max 0 (watts - fromSolar))
    solarRemaining := s.solarRemaining - fromSolar
    budget := s.budget - watts }

/-- Operations the power subsystem exposes to a driving loop. -/
inductive PowerOp where
  | refresh (t : Int) (phase : String)
  | draw (watts : Int)

/-- Apply one power operation (refresh is powerUpdate, draw is consumePower). -/
def applyPowerOp (s : PowerState) : PowerOp → PowerState
  | PowerOp.refresh t phase => powerUpdate t phase s
  | PowerOp.draw watts => consumePower s watts

/-- Apply a sequence of power operations in order. -/
def applyPowerOps (ops : List PowerOp) (s : PowerState) : PowerState :=
  ops.foldl applyPowerOp s

/-- Example start state for the power counterexamples: 1000 mWh capacity,
300 W sunlight generation, 0 W eclipse generation. -/
def pcex0 : PowerState := powerInit 1000 300 0

/-- The state after one sunlight refresh of pcex0: production 300, battery
clamped at 1000, budget 600. -/
def pcex1 : PowerState := powerUpdate 0 "sunlight" pcex0

/-- C1 counterexample.  After a sunlight refresh with battery full at 1000
and production 300, two successful consumes of 300 W each leave the battery
at 1000 in the source accounting (each consume is credited the full
production), while the accounting claimed by the spec, which debits a
tick-local solar remainder, leaves the battery at 700.  The claim that the
code debits min(w, solar_remaining) and draws only the remainder from the
battery is therefore false on the code. -/
theorem consume_solar_not_debited_cex :
    (consume pcex1 300).1 = ConsumeResult.ok ∧
    (consume (consume pcex1 300).2 300).1 = ConsumeResult.ok ∧
    (consume (consume pcex1 300).2 300).2.battery = 1000 ∧
    (specConsume (specConsume (specAfterRefresh pcex1) 300) 300).battery = 700 ∧
    (consume (consume pcex1 300).2 300).2.battery ≠
      (specConsume (specConsume (specAfterRefresh pcex1) 300) 300).battery := by
  refine ⟨rfl, rfl, rfl, rfl, ?_⟩
  decide

/-- C1 amended: each successful consume(w) draws max(0, w − produced_this_tick)
from the battery, measured against the full production every time (no
tick-local solar remainder is debited); the aggregate effect of two consumes
within one tick is nevertheless order-independent: the final state is the
same in either order. -/
theorem consumePower_amended_order_independent :
    ∀ (s : PowerState) (w1 w2 : Int),
      (consumePower s w1).battery
        = max 0 (s.battery - max 0 (w1 - s.producedThisMinute)) ∧
      consumePower (consumePower s w1) w2 = consumePower (consumePower s w2) w1 := by
  intro s w1 w2
  constructor
  · rfl
  · cases s
    simp only [consumePower, PowerState.mk.injEq]
    refine ⟨?_, trivial, trivial, trivial, trivial, ?_⟩ <;> omega

/-- C2: when the requested watts exceed the minute budget, the
reserve-and-consume protocol reports Insufficient and every component of the
power state is unchanged. -/
theorem consume_insufficient_state_unchanged
    (s : PowerState) (watts : Int) (h : s.budgetThisMinute < watts) :
    (consume s watts).1 = ConsumeResult.insufficient ∧
    (consume s watts).2.budgetThisMinute = s.budgetThisMinute ∧
    (consume s watts).2.battery = s.battery ∧
    (consume s watts).2.producedThisMinute = s.producedThisMinute := by
  have hb : canSatisfyDemand s watts = false := by
    simp [canSatisfyDemand]
    omega
  simp [consume, hb]

/-- C2 witness: a concrete failed consume leaves the concrete state intact. -/
theorem consume_insufficient_state_unchanged_witness :
    (consume pcex0 50).1 = ConsumeResult.insufficient ∧
    (consume pcex0 50).2.budgetThisMinute = pcex0.budgetThisMinute ∧
    (consume pcex0 50).2.battery = pcex0.battery ∧
    (consume pcex0 50).2.producedThisMinute = pcex0.producedThisMinute :=
  consume_insufficient_state_unchanged pcex0 50 (by decide)

/-- Any single power operation preserves the battery bounds and the capacity. -/
theorem applyPowerOp_battery_bounds (s : PowerState) (op : PowerOp)
    (h0 : 0 ≤ s.battery) (h1 : s.battery ≤ s.maxBattery) :
    0 ≤ (applyPowerOp s op).battery ∧
    (applyPowerOp s op).battery ≤ (applyPowerOp s op).maxBattery ∧
    (applyPowerOp s op).maxBattery = s.maxBattery := by
  cases op with
  | refresh t phase =>
      have e1 : (applyPowerOp s (PowerOp.refresh t phase)).battery
          = min (max (s.battery + solarGeneration s phase) 0) s.maxBattery := rfl
      have e2 : (applyPowerOp s (PowerOp.refresh t phase)).maxBattery = s.maxBattery := rfl
      refine ⟨?_, ?_, e2⟩ <;> omega
  | draw watts =>
      have e1 : (applyPowerOp s (PowerOp.draw watts)).battery
          = max 0 (s.battery - max 0 (watts - s.producedThisMinute)) := rfl
      have e2 : (applyPowerOp s (PowerOp.draw watts)).maxBattery = s.maxBattery := rfl
      refine ⟨?_, ?_, e2⟩ <;> omega

/-- C3: starting from any battery level within [0, capacity], every sequence
of refresh and consume operations keeps the battery within [0, capacity] at
every step (stated for the final state of an arbitrary such sequence). -/
theorem battery_bounds_invariant
    (ops : List PowerOp) (s : PowerState)
    (h0 : 0 ≤ s.battery) (h1 : s.battery ≤ s.maxBattery) :
    0 ≤ (applyPowerOps ops s).battery ∧
    (applyPowerOps ops s).battery ≤ (applyPowerOps ops s).maxBattery := by
  induction ops generalizing s with
  | nil => exact ⟨h0, h1⟩
  | cons op rest ih =>
      obtain ⟨g0, g1, _⟩ := applyPowerOp_battery_bounds s op h0 h1
      simpa [applyPowerOps] using ih (applyPowerOp s op) g0 g1

/-- C3 witness: the bounds hold after a concrete sunlight refresh followed by
two 300 W draws and an eclipse refresh. -/
theorem battery_bounds_invariant_witness :
    0 ≤ (applyPowerOps
          [PowerOp.refresh 0 "sunlight", PowerOp.draw 300,
           PowerOp.draw 300, PowerOp.refresh 1 "eclipse"] pcex0).battery ∧
    (applyPowerOps
          [PowerOp.refresh 0 "sunlight", PowerOp.draw 300,
           PowerOp.draw 300, PowerOp.refresh 1 "eclipse"] pcex0).battery ≤
      (applyPowerOps
          [PowerOp.refresh 0 "sunlight", PowerOp.draw 300,
           PowerOp.draw 300, PowerOp.refresh 1 "eclipse"] pcex0).maxBattery :=
  battery_bounds_invariant _ pcex0 (by decide) (by decide)

/-- Reachable state for the C4 counterexample: 250000 mWh capacity drained by
two eclipse refresh-and-draw rounds, leaving the battery at 249400. -/
def pcex2 : PowerState :=
  applyPowerOps
    [PowerOp.refresh 0 "eclipse", PowerOp.draw 300,
     PowerOp.refresh 1 "eclipse", PowerOp.draw 300]
    (powerInit 250000 300 0)

/-- C4 counterexample.  From the reachable state pcex2 (battery 249400, below
capacity), one sunlight refresh leaves the battery at 249700 while refreshing
twice with the same tick and phase leaves it at 250000: the second call
credits the battery again, so refresh is not idempotent within a tick. -/
theorem powerUpdate_not_idempotent_cex :
    pcex2.battery = 249400 ∧
    (powerUpdate 2 "sunlight" pcex2).battery = 249700 ∧
    (powerUpdate 2 "sunlight" (powerUpdate 2 "sunlight" pcex2)).battery = 250000 ∧
    (powerUpdate 2 "sunlight" (powerUpdate 2 "sunlight" pcex2)).battery ≠
      (powerUpdate 2 "sunlight" pcex2).battery := by
  refine ⟨rfl, rfl, rfl, ?_⟩
  decide

/-- C4 amended: refresh is idempotent within a tick only in the degenerate
cases the counterexample leaves: when the generation for the phase is zero
(eclipse with the default tunables) or when the battery already sits at
capacity, a second refresh with the same tick and phase reproduces the same
state; in general the second call credits the battery again.  Capacity and
generation are assumed nonnegative as everywhere in the source defaults. -/
theorem powerUpdate_idempotent_amended
    (t : Int) (phase : String) (s : PowerState)
    (hcap : 0 ≤ s.maxBattery)
    (hgen : 0 ≤ solarGeneration s phase)
    (hcase : solarGeneration s phase = 0 ∨ s.battery = s.maxBattery) :
    powerUpdate t phase (powerUpdate t phase s) = powerUpdate t phase s := by
  by_cases hp : phase = "sunlight"
  all_goals
    cases s
    simp only [solarGeneration, hp, if_true, if_false, reduceIte] at hgen hcase ⊢
    simp only [powerUpdate, solarGeneration, hp, if_true, if_false, reduceIte]
    simp only [PowerState.mk.injEq]
    refine ⟨?_, trivial, trivial, trivial, trivial, ?_⟩ <;> omega

/-- C4 amended witness: at full battery in sunlight, and separately in
eclipse with zero generation, a second refresh changes nothing. -/
theorem powerUpdate_idempotent_amended_witness :
    powerUpdate 0 "sunlight" (powerUpdate 0 "sunlight" pcex0)
      = powerUpdate 0 "sunlight" pcex0 :=
  powerUpdate_idempotent_amended 0 "sunlight" pcex0 (by decide) (by decide)
    (Or.inr (by decide))

/-- Task.PhaseInfo (Task.hpp lines 25-38).  The C++ double defectChance is
carried as a rational; the single comparison of a random double against it
is abstracted into the Boolean defectHit parameter of the module updates. -/
structure PhaseInfo where
  requiredTime : Int
  elapsedTime : Int
  energyUsed : Int
  wasInterrupted : Bool
  defectChance : ℚ
  defective : Bool
deriving DecidableEq, Repr

/-- PhaseInfo.isDone (Task.hpp line 36): elapsed has reached required. -/
def PhaseInfo.isDone (p : PhaseInfo) : Bool :=
  p.requiredTime ≤ p.elapsedTime

/-- PhaseInfo.timeRemaining (Task.hpp line 37). -/
def PhaseInfo.timeRemaining (p : PhaseInfo) : Int :=
  max 0 (p.requiredTime - p.elapsedTime)

/-- The std::array of three PhaseInfo records of a Task (Task.hpp line 44):
index 0 deposition, 1 ion implantation, 2 crystal growth. -/
structure Phases where
  dep : PhaseInfo
  ion : PhaseInfo
  gro : PhaseInfo
deriving DecidableEq, Repr

/-- Total indexing into the three-element phase array: indices 0, 1, 2 hit a
record, anything else is out of bounds and yields none (the C++ access
phase[i] for i outside 0..2 is undefined behaviour on std::array). -/
def Phases.atIndex (ph : Phases) : Nat → Option PhaseInfo
  | 0 => some ph.dep
  | 1 => some ph.ion
  | 2 => some ph.gro
  | _ => none

/-- Task (Task.hpp lines 22-65).  currentStage is documented as 0..2 with 3
meaning finished, so it is carried as a Nat. -/
structure Task where
  id : String
  phase : Phases
  currentStage : Nat
deriving DecidableEq, Repr

/-- Task.isComplete (Task.hpp line 51): currentStage has reached 3. -/
def Task.isComplete (t : Task) : Bool :=
  3 ≤ t.currentStage

/-- Task.currentPhase (Task.hpp lines 53-54) as a total function: the source
returns phase[currentStage] over the three-element array, so the embedding
yields none exactly when the index is out of bounds. -/
def Task.currentPhase (t : Task) : Option PhaseInfo :=
  t.phase.atIndex t.currentStage

/-- Task.phaseFail (Task.hpp line 63): the defective flag of the current
phase, through the same total indexing. -/
def Task.phaseFail (t : Task) : Option Bool :=
  (t.currentPhase).map PhaseInfo.defective

/-- Task defaults as loaded by loadTasksFromFile (main.cpp lines 30-52):
durations 60 / 20 / 120, defect chances 0.01 / 0.001 / 0.025, all counters
and flags zeroed. -/
def mkDefaultTask (id : String) : Task :=
  { id := id
    phase :=
      { dep := { requiredTime := 60, elapsedTime := 0, energyUsed := 0,
                 wasInterrupted := false, defectChance := 1/100, defective := false }
        ion := { requiredTime := 20, elapsedTime := 0, energyUsed := 0,
                 wasInterrupted := false, defectChance := 1/1000, defective := false }
        gro := { requiredTime := 120, elapsedTime := 0, energyUsed := 0,
                 wasInterrupted := false, defectChance := 25/1000, defective := false } }
    currentStage := 0 }

/-- C9: Task.currentPhase indexes a three-element array with currentStage, so
it yields a phase record exactly under the precondition currentStage ≤ 2;
for a completed task as reported by isComplete (currentStage at 3) the
access, and phaseFail which builds on it, yields none in the total
embedding. -/
theorem currentPhase_bounds (t : Task) :
    (t.currentStage ≤ 2 → (t.currentPhase).isSome = true) ∧
    (t.isComplete = true → t.currentPhase = none ∧ t.phaseFail = none) := by
  obtain ⟨i, ph, cs⟩ := t
  constructor
  · intro h
    interval_cases cs <;> rfl
  · intro h
    simp only [Task.isComplete, decide_eq_true_eq] at h
    obtain ⟨k, rfl⟩ : ∃ k, cs = k + 3 := ⟨cs - 3, by omega⟩
    exact ⟨rfl, rfl⟩

/-- C9 witness: a freshly loaded task has a current phase; the same task at
stage 3 reports complete and both accessors yield none. -/
theorem currentPhase_bounds_witness :
    ((mkDefaultTask "T_1").currentPhase).isSome = true ∧
    ({ mkDefaultTask "T_1" with currentStage := 3 }.currentPhase = none ∧
     { mkDefaultTask "T_1" with currentStage := 3 }.phaseFail = none) :=
  ⟨(currentPhase_bounds (mkDefaultTask "T_1")).1 (by decide),
   (currentPhase_bounds { mkDefaultTask "T_1" with currentStage := 3 }).2 (by decide)⟩

/-- Pointer identity of heap tasks: modules store Task pointers and compare
them by address, so an address is modeled as a Nat and the heap as a total
map from addresses to tasks. -/
abbrev TaskId := Nat

/-- The task heap. -/
abbrev Store := TaskId → Task

/-- Write through a task pointer. -/
def setTask (store : Store) (tid : TaskId) (t : Task) : Store :=
  fun j => if j = tid then t else store j

/-- State of the threaded DepositionModule: active pointer, elapsed counter,
and the FIFO of pending task pointers. -/
structure DepState where
  activeTask : Option TaskId
  elapsed : Int
  queue : List TaskId
deriving DecidableEq, Repr

/-- DepositionModule.hasCompletedTask: an active task whose deposition phase
is done. -/
def depHasCompletedTask (m : DepState) (store : Store) : Bool :=
  match m.activeTask with
  | some tid => (store tid).phase.dep.isDone
  | none => false

/-- The intake part of DepositionModule.update: pop a completed active task
(popCompleted clears the slot and zeroes elapsed), then, when idle, point at
the next queued task. -/
def depIntake (m : DepState) (store : Store) : DepState :=
  let m1 := if depHasCompletedTask m store
            then { m with activeTask := none, elapsed := 0 } else m
  match m1.activeTask, m1.queue with
  | none, tid :: rest => { m1 with activeTask := some tid, queue := rest }
  | _, _ => m1

/-- DepositionModule.update: after intake, an active task attempts to
consume 300 W.  On success the power is debited, 300 is added to phase-0
energyUsed, the defect RNG is sampled (runOneMinute) and elapsedTime is
incremented.  On failure phase-0 wasInterrupted is set, elapsedTime is still
incremented, and the method returns with power untouched. -/
def depUpdate (defectHit : Bool) (m : DepState) (p : PowerState) (store : Store) :
    DepState × PowerState × Store :=
  let m1 := depIntake m store
  match m1.activeTask with
  | none => (m1, p, store)
  | some tid =>
    if canSatisfyDemand p 300 then
      let p2 := consumePower p 300
      let task := store tid
      let ph := task.phase.dep
      let ph2 := { ph with energyUsed := ph.energyUsed + 300
                           defective := ph.defective || defectHit
                           elapsedTime := ph.elapsedTime + 1 }
      (m1, p2, setTask store tid { task with phase := { task.phase with dep := ph2 } })
    else
      let task := store tid
      let ph := task.phase.dep
      let ph2 := { ph with wasInterrupted := true
                           elapsedTime := ph.elapsedTime + 1 }
      (m1, p, setTask store tid { task with phase := { task.phase with dep := ph2 } })

/-- C5: whenever the deposition module holds an active job after intake and
the 300 W power check fails for the tick, the job gets phase-0
wasInterrupted set to true and phase-0 elapsedTime incremented by one, while
phase-0 energyUsed and the power state are unchanged. -/
theorem deposition_power_failure_behaviour
    (defectHit : Bool) (m : DepState) (p : PowerState) (store : Store) (tid : TaskId)
    (hact : (depIntake m store).activeTask = some tid)
    (hpow : canSatisfyDemand p 300 = false) :
    ((depUpdate defectHit m p store).2.2 tid).phase.dep.wasInterrupted = true ∧
    ((depUpdate defectHit m p store).2.2 tid).phase.dep.elapsedTime
      = (store tid).phase.dep.elapsedTime + 1 ∧
    ((depUpdate defectHit m p store).2.2 tid).phase.dep.energyUsed
      = (store tid).phase.dep.energyUsed ∧
    (depUpdate defectHit m p store).2.1 = p := by
  simp only [depUpdate]
  rw [hact]
  simp [hpow, setTask]

/-- Concrete deposition scenario for witnesses: one active default task at
address 1, empty queue, empty power budget. -/
def depEx : DepState := { activeTask := some 1, elapsed := 0, queue := [] }

/-- Concrete heap putting the default task everywhere. -/
def storeEx : Store := fun _ => mkDefaultTask "T_1"

/-- C5 witness: with the concrete starved power state, the concrete active
task comes out interrupted with elapsed 1 and energy 0. -/
theorem deposition_power_failure_behaviour_witness :
    ((depUpdate false depEx pcex0 storeEx).2.2 1).phase.dep.wasInterrupted = true ∧
    ((depUpdate false depEx pcex0 storeEx).2.2 1).phase.dep.elapsedTime
      = (storeEx 1).phase.dep.elapsedTime + 1 ∧
    ((depUpdate false depEx pcex0 storeEx).2.2 1).phase.dep.energyUsed
      = (storeEx 1).phase.dep.energyUsed ∧
    (depUpdate false depEx pcex0 storeEx).2.1 = pcex0 :=
  deposition_power_failure_behaviour false depEx pcex0 storeEx 1 (by decide) (by decide)

/-- The queue rebuild loop of DepositionModule.discardTask_dep: pop every
entry and push it back unless it is the discarded pointer. -/
def removeFromQueue (target : TaskId) : List TaskId → List TaskId
  | [] => []
  | q :: rest =>
      if q ≠ target then q :: removeFromQueue target rest
      else removeFromQueue target rest

/-- DepositionModule.discardTask_dep: clear the active slot (and zero
elapsed) when the discarded pointer is the active one, then rebuild the
queue without it.  The heap is never written through the pointer. -/
def discardTask_dep (task : TaskId) (m : DepState) (store : Store) :
    DepState × Store :=
  let m1 := if m.activeTask = some task
            then { m with activeTask := none, elapsed := 0 } else m
  ({ m1 with queue := removeFromQueue task m1.queue }, store)

/-- The rebuild loop never keeps the discarded pointer. -/
theorem removeFromQueue_not_mem (target : TaskId) (l : List TaskId) :
    target ∉ removeFromQueue target l := by
  induction l with
  | nil => simp [removeFromQueue]
  | cons q rest ih =>
      by_cases h : q = target
      · have e : removeFromQueue target (q :: rest) = removeFromQueue target rest := by
          simp [removeFromQueue, h]
        rw [e]
        exact ih
      · have e : removeFromQueue target (q :: rest)
            = q :: removeFromQueue target rest := by
          simp [removeFromQueue, h]
        rw [e]
        intro hmem
        rcases List.mem_cons.mp hmem with h1 | h1
        · exact h h1.symm
        · exact ih h1

/-- The rebuild loop yields a subsequence of the original queue, so the
relative order of the kept entries is preserved. -/
theorem removeFromQueue_sublist (target : TaskId) (l : List TaskId) :
    List.Sublist (removeFromQueue target l) l := by
  induction l with
  | nil => simp [removeFromQueue]
  | cons q rest ih =>
      by_cases h : q = target
      · have e : removeFromQueue target (q :: rest) = removeFromQueue target rest := by
          simp [removeFromQueue, h]
        rw [e]
        exact List.Sublist.cons _ ih
      · have e : removeFromQueue target (q :: rest)
            = q :: removeFromQueue target rest := by
          simp [removeFromQueue, h]
        rw [e]
        exact List.Sublist.cons₂ _ ih

/-- The rebuild loop keeps every entry other than the discarded pointer. -/
theorem removeFromQueue_mem_of_ne (target y : TaskId) (l : List TaskId)
    (hy : y ∈ l) (hne : y ≠ target) : y ∈ removeFromQueue target l := by
  induction l with
  | nil => simp at hy
  | cons q rest ih =>
      rcases List.mem_cons.mp hy with h | h
      · subst h
        have e : removeFromQueue target (y :: rest)
            = y :: removeFromQueue target rest := by
          simp [removeFromQueue, hne]
        rw [e]
        exact List.mem_cons_self y _
      · by_cases hq : q = target
        · have e : removeFromQueue target (q :: rest) = removeFromQueue target rest := by
            simp [removeFromQueue, hq]
          rw [e]
          exact ih h
        · have e : removeFromQueue target (q :: rest)
              = q :: removeFromQueue target rest := by
            simp [removeFromQueue, hq]
          rw [e]
          exact List.mem_cons_of_mem q (ih h)

/-- C10: discardTask_dep clears the active slot and zeroes elapsed exactly
when the discarded pointer was active, removes every occurrence of it from
the pending queue, keeps all other queued pointers in their FIFO order, and
writes nothing to any task record. -/
theorem discardTask_dep_spec (task : TaskId) (m : DepState) (store : Store) :
    (discardTask_dep task m store).1.activeTask
        = (if m.activeTask = some task then none else m.activeTask) ∧
    (discardTask_dep task m store).1.elapsed
        = (if m.activeTask = some task then 0 else m.elapsed) ∧
    task ∉ (discardTask_dep task m store).1.queue ∧
    List.Sublist (discardTask_dep task m store).1.queue m.queue ∧
    (∀ y ∈ m.queue, y ≠ task → y ∈ (discardTask_dep task m store).1.queue) ∧
    (discardTask_dep task m store).2 = store := by
  by_cases h : m.activeTask = some task <;>
    refine ⟨by simp [discardTask_dep, h], by simp [discardTask_dep, h],
            by simp [discardTask_dep, h]; exact removeFromQueue_not_mem task m.queue,
            by simp [discardTask_dep, h]; exact removeFromQueue_sublist task m.queue,
            fun y hy hne => by
              simp [discardTask_dep, h]
              exact removeFromQueue_mem_of_ne task y m.queue hy hne,
            rfl⟩

/-- C10 witness: discarding address 1 from a concrete queue keeps the other
entries; here entry 2 survives the rebuild. -/
theorem discardTask_dep_spec_witness :
    2 ∈ (discardTask_dep 1 { activeTask := some 1, elapsed := 7, queue := [2, 1, 3] }
          storeEx).1.queue :=
  (discardTask_dep_spec 1 { activeTask := some 1, elapsed := 7, queue := [2, 1, 3] }
    storeEx).2.2.2.2.1 2 (by decide) (by decide)

/-- State of the scrapped IonImplantationModule: active pointer, elapsed,
the cooldown counter, the calibration flag and counter, and the FIFO. -/
structure IonState where
  activeTask : Option TaskId
  elapsed : Int
  coolDown : Int
  calibrating : Bool
  calibrationTime : Int
  queue : List TaskId
deriving DecidableEq, Repr

/-- IonImplantationModule constructor (ion_implantation_model.cpp lines
19-23): idle, cooldown 5, calibrating with 3 remaining. -/
def ionInit : IonState :=
  { activeTask := none, elapsed := 0, coolDown := 5,
    calibrating := true, calibrationTime := 3, queue := [] }

/-- IonImplantationModule.hasCompletedTask (lines 37-40).  The source body
assigns COOL_DOWN = 5 before returning the completion check, so every call
resets the cooldown; the embedding returns the mutated state with the
answer. -/
def ionHasCompletedTask (m : IonState) (store : Store) : IonState × Bool :=
  let m1 := { m with coolDown := 5 }
  match m1.activeTask with
  | some tid => (m1, (store tid).phase.ion.isDone)
  | none => (m1, false)

/-- IonImplantationModule.popCompleted (lines 186-193): clears the slot,
zeroes elapsed, resets the five-minute cooldown. -/
def ionPopCompleted (m : IonState) : IonState :=
  { m with activeTask := none, elapsed := 0, coolDown := 5 }

/-- The calibration branch of update_imp (lines 90-112): check 100 W; on
failure the method just returns after printing that the task is marked
defective — no flag is written; on success consume 100 W, credit phase-1
energy and elapsed, decrement the calibration counter and end calibration
when it reaches zero. -/
def ionCalibrationStep (tid : TaskId) (m : IonState) (p : PowerState)
    (store : Store) : IonState × PowerState × Store :=
  if canSatisfyDemand p 100 = false then (m, p, store)
  else
    let p2 := consumePower p 100
    let task := store tid
    let ph := task.phase.ion
    let ph2 := { ph with energyUsed := ph.energyUsed + 100
                         elapsedTime := ph.elapsedTime + 1 }
    let store2 := setTask store tid { task with phase := { task.phase with ion := ph2 } }
    let m1 := { m with calibrationTime := m.calibrationTime - 1 }
    let m2 := if m1.calibrationTime = 0 then { m1 with calibrating := false } else m1
    (m2, p2, store2)

/-- The running branch of update_imp (lines 114-134): try 200 W; on success
credit energy, sample the defect RNG (runOneMinute_imp) and advance elapsed;
on failure set wasInterrupted AND defective and still advance elapsed. -/
def ionRunStep (defectHit : Bool) (tid : TaskId) (m : IonState) (p : PowerState)
    (store : Store) : IonState × PowerState × Store :=
  let enoughPower := canSatisfyDemand p 200
  let p2 := if enoughPower then consumePower p 200 else p
  let task := store tid
  let ph := task.phase.ion
  let ph2 :=
    if enoughPower then
      { ph with energyUsed := ph.energyUsed + 200
                defective := ph.defective || defectHit
                elapsedTime := ph.elapsedTime + 1 }
    else
      { ph with wasInterrupted := true
                defective := true
                elapsedTime := ph.elapsedTime + 1 }
  (m, p2, setTask store tid { task with phase := { task.phase with ion := ph2 } })

/-- IonImplantationModule.update_imp (lines 54-156): call hasCompletedTask
(which resets the cooldown to 5), pop a completed task, skip the minute
while the cooldown is positive (decrementing it), otherwise start a queued
task with a fresh calibration, then run either the calibration branch or the
work branch on the active task. -/
def ionUpdate (defectHit : Bool) (m : IonState) (p : PowerState) (store : Store) :
    IonState × PowerState × Store :=
  let mc := ionHasCompletedTask m store
  let m2 := if mc.2 then ionPopCompleted mc.1 else mc.1
  if 0 < m2.coolDown then ({ m2 with coolDown := m2.coolDown - 1 }, p, store)
  else
    let m3 :=
      match m2.activeTask, m2.queue with
      | none, tid :: rest =>
          { m2 with activeTask := some tid, queue := rest,
                    calibrating := true, calibrationTime := 3 }
      | _, _ => m2
    match m3.activeTask with
    | none => (m3, p, store)
    | some tid =>
        if m3.calibrating = true ∧ 0 < m3.calibrationTime
        then ionCalibrationStep tid m3 p store
        else ionRunStep defectHit tid m3 p store

/-- A freshly constructed ion module with one queued task at address 1. -/
def ionEx0 : IonState := { ionInit with queue := [1] }

/-- The module state after one tick of ionEx0. -/
def ionEx1 : IonState := (ionUpdate false ionEx0 pcex1 storeEx).1

/-- The module state after two ticks of ionEx0. -/
def ionEx2 : IonState := (ionUpdate false ionEx1 pcex1 storeEx).1

/-- C6 failing behaviour: hasCompletedTask resets COOL_DOWN to 5 at the top
of every update, so after every tick the remaining cooldown is 4 — it never
counts down to zero, the queued task never starts, and cooldown does not end
after five ticks as claimed: the module is permanently cooling down. -/
theorem ion_cooldown_reset_bug :
    ionEx1.coolDown = 4 ∧ ionEx2.coolDown = 4 ∧
    ionEx1.activeTask = none ∧ ionEx2.activeTask = none ∧
    ionEx1.queue = [1] ∧ ionEx2.queue = [1] := by
  refine ⟨rfl, rfl, rfl, rfl, rfl, rfl⟩

/-- A calibrating ion module state with cooldown spent, as the calibration
branch expects. -/
def calEx : IonState :=
  { activeTask := some 1, elapsed := 0, coolDown := 0,
    calibrating := true, calibrationTime := 3, queue := [] }

/-- C7 failing behaviour: on a failed 100 W check the calibration branch
returns with the heap untouched — in particular the phase-1 defective flag
stays false, although the claim (and the log message the source prints)
says the job is marked defective.  The success half of the claim does hold:
with enough power, 100 W is consumed, phase-1 energy and elapsed are
credited and the calibration counter drops. -/
theorem ion_calibration_failure_no_defect_bug :
    (storeEx 1).phase.ion.defective = false ∧
    ((ionCalibrationStep 1 calEx pcex0 storeEx).2.2 1).phase.ion.defective = false ∧
    (ionCalibrationStep 1 calEx pcex0 storeEx).2.2 1 = storeEx 1 ∧
    (ionCalibrationStep 1 calEx pcex0 storeEx).1 = calEx ∧
    ((ionCalibrationStep 1 calEx pcex1 storeEx).2.2 1).phase.ion.energyUsed
      = (storeEx 1).phase.ion.energyUsed + 100 ∧
    ((ionCalibrationStep 1 calEx pcex1 storeEx).2.2 1).phase.ion.elapsedTime
      = (storeEx 1).phase.ion.elapsedTime + 1 ∧
    (ionCalibrationStep 1 calEx pcex1 storeEx).1.calibrationTime = 2 := by
  refine ⟨rfl, rfl, rfl, rfl, rfl, rfl, rfl⟩

/-- Default-constructed PhaseInfo (the member initializers of Task.hpp). -/
def phaseDefault : PhaseInfo :=
  { requiredTime := 0, elapsedTime := 0, energyUsed := 0,
    wasInterrupted := false, defectChance := 0, defective := false }

/-- Writing the three-element phase array at an index; an out-of-range index
is undefined behaviour on the C++ array and is modeled as a dropped write
(the supervisor theorems keep the index in range). -/
def Phases.setIndex (ph : Phases) : Nat → PhaseInfo → Phases
  | 0, q => { ph with dep := q }
  | 1, q => { ph with ion := q }
  | 2, q => { ph with gro := q }
  | _, _ => ph

/-- The orbit phase string computed by the supervisor loop (main.cpp line
123): sunlight for the first 45 minutes of each 90-minute orbit. -/
def orbitPhaseOf (t : Int) : String :=
  if t % 90 < 45 then "sunlight" else "eclipse"

/-- State of the single-threaded supervisor of main.cpp. -/
structure MainState where
  tasks : List Task
  currentTaskIndex : Nat
  current_t : Int
  defectCount : Int
  power : PowerState
deriving DecidableEq, Repr

/-- One iteration of the supervisor loop of main.cpp (lines 121-205), run
while time and the task index are in range: refresh power for the minute,
then the early check (lines 133-144) skips a task whose current phase is
defective or wasInterrupted, advancing the index, the minute and the defect
counter; otherwise the stage work runs — the stage-0 DepositionModule call
is the stub of deposition_model.cpp and performs no work, the other stages
consume power and advance elapsed when the budget allows — then the stage
advances on phase completion and the index on task completion.  Reads of
phase[currentStage] use the total indexing with the default record for the
out-of-range case, which is undefined behaviour in the source. -/
def mainStep (s : MainState) : MainState :=
  match s.tasks.get? s.currentTaskIndex with
  | none => s
  | some task =>
    let power1 := powerUpdate s.current_t (orbitPhaseOf s.current_t) s.power
    let curPh := (task.phase.atIndex task.currentStage).getD phaseDefault
    if task.phaseFail.getD false || curPh.wasInterrupted then
      { s with currentTaskIndex := s.currentTaskIndex + 1
               current_t := s.current_t + 1
               defectCount := s.defectCount + 1
               power := power1 }
    else
      let requiredPower : Int :=
        if task.currentStage = 0 then 300
        else if task.currentStage = 1 then 200
        else if task.currentStage = 2 then 250
        else 0
      let consumed := (task.currentStage != 0) && canSatisfyDemand power1 requiredPower
      let power2 := if consumed then consumePower power1 requiredPower else power1
      let task2 :=
        if consumed then
          let newPh := { curPh with elapsedTime := curPh.elapsedTime + 1 }
          { task with phase := task.phase.setIndex task.currentStage newPh }
        else task
      let curPh2 := (task2.phase.atIndex task2.currentStage).getD phaseDefault
      let task3 :=
        if curPh2.isDone then { task2 with currentStage := task2.currentStage + 1 }
        else task2
      let idx2 :=
        if task3.isComplete then s.currentTaskIndex + 1 else s.currentTaskIndex
      { s with tasks := s.tasks.set s.currentTaskIndex task3
               currentTaskIndex := idx2
               current_t := s.current_t + 1
               power := power2 }

/-- A default task whose deposition phase was interrupted once and is not
defective. -/
def stalledTask : Task :=
  { mkDefaultTask "T_1" with
      phase := { (mkDefaultTask "T_1").phase with
                   dep := { (mkDefaultTask "T_1").phase.dep with wasInterrupted := true } } }

/-- A supervisor state holding only the stalled, non-defective task. -/
def mainEx : MainState :=
  { tasks := [stalledTask], currentTaskIndex := 0, current_t := 0,
    defectCount := 0, power := powerInit 250000 300 0 }

/-- C8 counterexample: the stalled task is not defective, yet one supervisor
iteration advances the index past it, counts it as a defect, and leaves its
records untouched — the supervisor skips an interrupted deposition job
instead of continuing to process it. -/
theorem supervisor_skips_interrupted_cex :
    stalledTask.phaseFail = some false ∧
    stalledTask.phase.dep.wasInterrupted = true ∧
    (mainStep mainEx).currentTaskIndex = 1 ∧
    (mainStep mainEx).defectCount = 1 ∧
    (mainStep mainEx).tasks = [stalledTask] := by
  refine ⟨rfl, rfl, rfl, rfl, rfl⟩

/-- C8 amended: the supervisor of main.cpp treats interruption exactly like
a defect: whenever the current task is in range and its current phase is
defective or wasInterrupted, the iteration takes the early-skip branch —
power is refreshed, the task index, the minute and the defect counter each
advance by one, and no task record changes. -/
theorem supervisor_skips_interrupted_amended
    (s : MainState) (task : Task)
    (htask : s.tasks.get? s.currentTaskIndex = some task)
    (hflag : task.phaseFail.getD false = true ∨
      ((task.phase.atIndex task.currentStage).getD phaseDefault).wasInterrupted = true) :
    mainStep s = { s with currentTaskIndex := s.currentTaskIndex + 1
                          current_t := s.current_t + 1
                          defectCount := s.defectCount + 1
                          power := powerUpdate s.current_t (orbitPhaseOf s.current_t) s.power } := by
  simp only [mainStep]
  rw [htask]
  have hcond : (task.phaseFail.getD false ||
      ((task.phase.atIndex task.currentStage).getD phaseDefault).wasInterrupted) = true := by
    rcases hflag with h | h <;> simp [h]
  simp [hcond]

/-- C8 amended witness: the concrete stalled-task state takes the skip
branch. -/
theorem supervisor_skips_interrupted_amended_witness :
    mainStep mainEx =
      { mainEx with currentTaskIndex := 1
                    current_t := 1
                    defectCount := 1
                    power := powerUpdate 0 (orbitPhaseOf 0) mainEx.power } :=
  supervisor_skips_interrupted_amended mainEx stalledTask rfl (Or.inr rfl)

end SpaceForge
